import Mathlib

/-!
Shallow embedding of the light_nft_reproducer Anchor program
(src/anchor/programs/light_nft_reproducer/src/lib.rs).

Byte arrays are modelled as lists of naturals.  External collaborators
(the Poseidon hasher from the light_hasher crate, and the light_sdk
attach and invoke steps) are modelled as oracle functions passed in as
parameters; their error details are opaque diagnostics, modelled as Nat.
-/

/-- An entry of the caller-supplied account-reference list
(Solana AccountInfo as used in lib.rs 61-69: key, is_signer, is_writable). -/
structure AccountInfoModel where
  key : List Nat
  is_signer : Bool
  is_writable : Bool

/-- CompressedProof from light_sdk (lib.rs 81-85): components
a (32 bytes), b (64 bytes), c (32 bytes). -/
structure CompressedProof where
  a : List Nat
  b : List Nat
  c : List Nat

/-- ValidityProof (lib.rs 86-87): a tuple struct wrapping
Option CompressedProof. -/
structure ValidityProof where
  proof : Option CompressedProof

/-- NewAddressParamsAssignedPacked from light_sdk::address
(constructed in lib.rs 96-103). -/
structure NewAddressParamsAssignedPacked where
  seed : List Nat
  address_queue_account_index : Nat
  address_merkle_tree_account_index : Nat
  address_merkle_tree_root_index : Nat
  assigned_to_account : Bool
  assigned_account_index : Nat

/-- NFTRegistry record (lib.rs 183-193): owner 32 bytes, name 32 bytes,
symbol 10 bytes, uri_hash 32 bytes. -/
structure NFTRegistry where
  owner : List Nat
  name : List Nat
  symbol : List Nat
  uri_hash : List Nat

/-- LightAccount of NFTRegistry, as far as this program uses it
(lib.rs 126-135): new_init(program id, None, output_queue_absolute_index)
followed by the four field assignments. -/
structure LightAccountModel where
  address : Option (List Nat)
  output_merkle_tree_index : Nat
  record : NFTRegistry

/-- CpiAccounts::new(fee_payer, remaining_accounts, signer)
(lib.rs 73-77); the constant CPI signer is left implicit. -/
structure CpiAccountsModel where
  fee_payer : List Nat
  accounts : List AccountInfoModel

/-- The program's two error codes (lib.rs 213-219). -/
inductive ErrorCode where
  | LightAccountError
  | CpiInvokeFailed
deriving DecidableEq

/-- Overwrite the first src.length entries of buf with src, keeping the
rest of buf: Rust buf[..src.len()].copy_from_slice(src). -/
def overwriteHead (buf src : List Nat) : List Nat :=
  src ++ buf.drop src.length

/-- Rust slice expression l[..n]: defined exactly when n is at most the
length (otherwise the Rust operation panics). -/
def slice_to (l : List Nat) (n : Nat) : Option (List Nat) :=
  if n ≤ l.length then some (l.take n) else none

/-- Fixed-width packing as in lib.rs 108-117: a zeroed w-byte buffer
whose first min(len, w) bytes are copied from the source string's bytes. -/
def pack_fixed_width (s : List Nat) (w : Nat) : List Nat :=
  overwriteHead (List.replicate w 0) (s.take (min s.length w))

/-- The same packing with every slice bound checked, mirroring the panic
conditions of the Rust slicing (source slice, destination slice) and the
equal-length requirement of copy_from_slice; none marks a would-panic. -/
def pack_fixed_width_checked (s : List Nat) (w : Nat) : Option (List Nat) :=
  match slice_to s (min s.length w), slice_to (List.replicate w 0) (min s.length w) with
  | some src, some dst =>
      if src.length = dst.length then
        some (overwriteHead (List.replicate w 0) src)
      else none
  | _, _ => none

/-- hash_to_32_bytes (lib.rs 196-211).  The Poseidon hasher lives in the
external light_hasher crate and is taken as an oracle: some digest on
success, none on failure.  On failure the function falls back to the
truncate-and-zero-pad of the raw bytes into 32 bytes, which is the same
zero-buffer-and-copy pattern as the fixed-width packer. -/
def hash_to_32_bytes (poseidon : List Nat → Option (List Nat))
    (data : List Nat) : List Nat :=
  match poseidon data with
  | some hash => hash
  | none => pack_fixed_width data 32

/-- Everything create_compressed_nft assembles before the attach and
invoke steps. -/
structure Request where
  proof : ValidityProof
  new_address_params : NewAddressParamsAssignedPacked
  registry : LightAccountModel
  cpi_accounts : CpiAccountsModel

/-- Outcome of one run: the returned Result, plus whether the CPI
invocation step was reached. -/
structure RunOutcome where
  result : Except ErrorCode Unit
  invokeAttempted : Bool

/-- Request assembly, lib.rs 73-135: CpiAccounts, the validity proof,
the new-address parameters (tree at absolute index 8, integrated queue),
the packed fields, the URI hash, and the registry payload tagged with
output queue absolute index 9.  The owner copy_from_slice is the
identity on the 32-byte signer key.  The two hint parameters
address_tree_account_index and output_queue_index are received but,
as in the source, never used. -/
def build_request (poseidon : List Nat → Option (List Nat))
    (user_key : List Nat) (remaining_accounts : List AccountInfoModel)
    (name symbol uri : List Nat)
    (proof_a proof_b proof_c : List Nat)
    (address_tree_root_index : Nat)
    (address_tree_account_index : Nat)
    (output_queue_index : Nat)
    (address_seed : List Nat) : Request :=
  let cpi_accounts : CpiAccountsModel :=
    { fee_payer := user_key, accounts := remaining_accounts }
  let compressed_proof : CompressedProof :=
    { a := proof_a, b := proof_b, c := proof_c }
  let proof : ValidityProof := { proof := some compressed_proof }
  let address_tree_absolute_index : Nat := 8
  let new_address_params : NewAddressParamsAssignedPacked :=
    { seed := address_seed
      address_queue_account_index := 0
      address_merkle_tree_account_index := address_tree_absolute_index
      address_merkle_tree_root_index := address_tree_root_index
      assigned_to_account := false
      assigned_account_index := 0 }
  let owner_bytes := user_key
  let name_bytes := pack_fixed_width name 32
  let symbol_bytes := pack_fixed_width symbol 10
  let uri_hash := hash_to_32_bytes poseidon uri
  let output_queue_absolute_index : Nat := 9
  let registry : LightAccountModel :=
    { address := none
      output_merkle_tree_index := output_queue_absolute_index
      record :=
        { owner := owner_bytes
          name := name_bytes
          symbol := symbol_bytes
          uri_hash := uri_hash } }
  { proof := proof
    new_address_params := new_address_params
    registry := registry
    cpi_accounts := cpi_accounts }

/-- The attach-then-invoke tail of create_compressed_nft (lib.rs
145-159): with_light_account failure maps to LightAccountError and
stops; otherwise invoke runs and its failure maps to CpiInvokeFailed;
otherwise Ok.  The underlying diagnostics are only logged. -/
def run_request (attach : LightAccountModel → Except Nat Unit)
    (invoke : Request → Except Nat Unit) (req : Request) : RunOutcome :=
  match attach req.registry with
  | Except.error _ =>
      { result := Except.error ErrorCode.LightAccountError
        invokeAttempted := false }
  | Except.ok _ =>
      match invoke req with
      | Except.error _ =>
          { result := Except.error ErrorCode.CpiInvokeFailed
            invokeAttempted := true }
      | Except.ok _ =>
          { result := Except.ok (), invokeAttempted := true }

/-- Whole entry point: assemble the request, then attach and invoke. -/
def create_compressed_nft (attach : LightAccountModel → Except Nat Unit)
    (invoke : Request → Except Nat Unit)
    (poseidon : List Nat → Option (List Nat))
    (user_key : List Nat) (remaining_accounts : List AccountInfoModel)
    (name symbol uri : List Nat)
    (proof_a proof_b proof_c : List Nat)
    (address_tree_root_index : Nat)
    (address_tree_account_index : Nat)
    (output_queue_index : Nat)
    (address_seed : List Nat) : RunOutcome :=
  run_request attach invoke
    (build_request poseidon user_key remaining_accounts name symbol uri
      proof_a proof_b proof_c address_tree_root_index
      address_tree_account_index output_queue_index address_seed)

/-- A concrete account handle used in concrete runs. -/
def sample_account : AccountInfoModel :=
  { key := List.replicate 32 1, is_signer := false, is_writable := true }

/-- A concrete assembled request whose account-reference list has only 5
entries (too short to hold positions 8 and 9). -/
def sample_request : Request :=
  build_request (fun _ => none) (List.replicate 32 2)
    (List.replicate 5 sample_account)
    [65, 114, 116] [65, 82, 84] [104, 105]
    (List.replicate 32 0) (List.replicate 64 0) (List.replicate 32 0)
    7 3 4 (List.replicate 32 9)

theorem pack_fixed_width_eq (s : List Nat) (w : Nat) :
    pack_fixed_width s w =
      s.take (min s.length w) ++ List.replicate (w - min s.length w) 0 := by
  unfold pack_fixed_width overwriteHead
  rw [List.length_take, List.drop_replicate]
  congr 2
  omega

theorem pack_fixed_width_length (s : List Nat) (w : Nat) :
    (pack_fixed_width s w).length = w := by
  rw [pack_fixed_width_eq]
  simp [List.length_take]

theorem pack_fixed_width_checked_eq (s : List Nat) (w : Nat) :
    pack_fixed_width_checked s w = some (pack_fixed_width s w) := by
  have h1 : min s.length w ≤ s.length := Nat.min_le_left _ _
  have h2 : min s.length w ≤ (List.replicate w (0 : Nat)).length := by
    simpa using Nat.min_le_right s.length w
  have h3 : (s.take (min s.length w)).length
      = ((List.replicate w (0 : Nat)).take (min s.length w)).length := by
    simp [List.length_take]
  unfold pack_fixed_width_checked slice_to
  rw [if_pos h1, if_pos h2]
  simp only []
  rw [if_pos h3]
  rfl

/-- Claim C1: the account index resolver maps the address tree role to
absolute position 8 and the output queue role to absolute position 9 in
the account-reference list, and the caller-supplied hint parameters
address_tree_account_index and output_queue_index have no effect on the
assembled request. -/
theorem c1_absolute_indices_ignore_hints
    (poseidon : List Nat → Option (List Nat))
    (user_key : List Nat) (remaining_accounts : List AccountInfoModel)
    (name symbol uri proof_a proof_b proof_c : List Nat)
    (root ti qi ti' qi' : Nat) (seed : List Nat) :
    (build_request poseidon user_key remaining_accounts name symbol uri
        proof_a proof_b proof_c root ti qi seed).new_address_params.address_merkle_tree_account_index
      = 8 ∧
    (build_request poseidon user_key remaining_accounts name symbol uri
        proof_a proof_b proof_c root ti qi seed).registry.output_merkle_tree_index
      = 9 ∧
    build_request poseidon user_key remaining_accounts name symbol uri
        proof_a proof_b proof_c root ti qi seed
      = build_request poseidon user_key remaining_accounts name symbol uri
        proof_a proof_b proof_c root ti' qi' seed :=
  ⟨rfl, rfl, rfl⟩

/-- Claim C3: each packed field is exactly its declared width, equals the
first min(len, w) source bytes followed by zeros; an overlong string is
truncated to its first w bytes and an exactly-w-byte string is copied
verbatim. -/
theorem c3_fixed_width_fields
    (poseidon : List Nat → Option (List Nat))
    (user_key : List Nat) (remaining_accounts : List AccountInfoModel)
    (name symbol uri proof_a proof_b proof_c : List Nat)
    (root ti qi : Nat) (seed : List Nat) :
    (build_request poseidon user_key remaining_accounts name symbol uri
        proof_a proof_b proof_c root ti qi seed).registry.record.name
      = pack_fixed_width name 32 ∧
    (build_request poseidon user_key remaining_accounts name symbol uri
        proof_a proof_b proof_c root ti qi seed).registry.record.symbol
      = pack_fixed_width symbol 10 ∧
    (pack_fixed_width name 32).length = 32 ∧
    (pack_fixed_width symbol 10).length = 10 ∧
    pack_fixed_width name 32
      = name.take (min name.length 32)
          ++ List.replicate (32 - min name.length 32) 0 ∧
    pack_fixed_width symbol 10
      = symbol.take (min symbol.length 10)
          ++ List.replicate (10 - min symbol.length 10) 0 ∧
    (32 ≤ name.length → pack_fixed_width name 32 = name.take 32) ∧
    (name.length = 32 → pack_fixed_width name 32 = name) := by
  refine ⟨rfl, rfl, pack_fixed_width_length _ _, pack_fixed_width_length _ _,
    pack_fixed_width_eq _ _, pack_fixed_width_eq _ _, ?_, ?_⟩
  · intro h
    rw [pack_fixed_width_eq]
    have hmin : min name.length 32 = 32 := by omega
    rw [hmin]
    simp
  · intro h
    rw [pack_fixed_width_eq]
    have hmin : min name.length 32 = 32 := by omega
    rw [hmin]
    simp [List.take_of_length_le (Nat.le_of_eq h)]

/-- Witness for C3 at a 40-byte name: the packed field is the first 32
bytes of the name. -/
theorem c3_witness :
    (build_request (fun _ => none) (List.replicate 32 2) []
        (List.replicate 40 7) [65, 82, 84] [] [] [] [] 0 0 0 []).registry.record.name
      = (List.replicate 40 7).take 32 := by
  have h := c3_fixed_width_fields (fun _ => none) (List.replicate 32 2) []
    (List.replicate 40 7) [65, 82, 84] [] [] [] [] 0 0 0 []
  rw [h.1]
  exact h.2.2.2.2.2.2.1 (by simp)

/-- Claim C4: the new-address descriptor carries the caller's seed, queue
marker 0 (integrated queue), the caller's root index unchanged, and
assigned_to_account = false. -/
theorem c4_new_address_descriptor
    (poseidon : List Nat → Option (List Nat))
    (user_key : List Nat) (remaining_accounts : List AccountInfoModel)
    (name symbol uri proof_a proof_b proof_c : List Nat)
    (root ti qi : Nat) (seed : List Nat) :
    (build_request poseidon user_key remaining_accounts name symbol uri
        proof_a proof_b proof_c root ti qi seed).new_address_params.seed = seed ∧
    (build_request poseidon user_key remaining_accounts name symbol uri
        proof_a proof_b proof_c root ti qi seed).new_address_params.address_queue_account_index
      = 0 ∧
    (build_request poseidon user_key remaining_accounts name symbol uri
        proof_a proof_b proof_c root ti qi seed).new_address_params.address_merkle_tree_root_index
      = root ∧
    (build_request poseidon user_key remaining_accounts name symbol uri
        proof_a proof_b proof_c root ti qi seed).new_address_params.assigned_to_account
      = false :=
  ⟨rfl, rfl, rfl, rfl⟩

/-- Claim C2 is refuted: with an account-reference list of only 5
entries (missing absolute offset 9), the run does not fail before the
invocation step; the invocation is attempted, and when both external
steps accept, the whole call even succeeds.  No local rejection of the
malformed list exists. -/
theorem c2_counterexample :
    sample_request.cpi_accounts.accounts.length = 5 ∧
    (run_request (fun _ => Except.ok ()) (fun _ => Except.ok ())
        sample_request).invokeAttempted = true ∧
    (run_request (fun _ => Except.ok ()) (fun _ => Except.ok ())
        sample_request).result = Except.ok () :=
  ⟨rfl, rfl, rfl⟩

/-- Claim C2 (amended): the core performs no local validation of the
account-reference list shape; even when the list is shorter than the
minimum prefix (so offset 9 is missing), the invocation step is still
attempted whenever payload attachment succeeds, and any invocation
failure surfaces from the external call as CpiInvokeFailed. -/
theorem c2_short_list_reaches_invoke
    (attach : LightAccountModel → Except Nat Unit)
    (invoke : Request → Except Nat Unit)
    (poseidon : List Nat → Option (List Nat))
    (user_key : List Nat) (remaining_accounts : List AccountInfoModel)
    (name symbol uri proof_a proof_b proof_c : List Nat)
    (root ti qi : Nat) (seed : List Nat)
    (hshort : remaining_accounts.length < 10)
    (hattach : attach (build_request poseidon user_key remaining_accounts
        name symbol uri proof_a proof_b proof_c root ti qi seed).registry
      = Except.ok ()) :
    (create_compressed_nft attach invoke poseidon user_key
        remaining_accounts name symbol uri proof_a proof_b proof_c
        root ti qi seed).invokeAttempted = true ∧
    ∀ e, invoke (build_request poseidon user_key remaining_accounts
          name symbol uri proof_a proof_b proof_c root ti qi seed)
        = Except.error e →
      (create_compressed_nft attach invoke poseidon user_key
          remaining_accounts name symbol uri proof_a proof_b proof_c
          root ti qi seed).result = Except.error ErrorCode.CpiInvokeFailed := by
  unfold create_compressed_nft run_request
  rw [hattach]
  refine ⟨?_, ?_⟩
  · cases hi : invoke (build_request poseidon user_key remaining_accounts
      name symbol uri proof_a proof_b proof_c root ti qi seed) <;> rfl
  · intro e hi
    rw [hi]

/-- Witness for the amended C2: a concrete 5-entry list reaches the
invocation and its failure is reported as CpiInvokeFailed. -/
theorem c2_witness :
    (create_compressed_nft (fun _ => Except.ok ()) (fun _ => Except.error 3)
        (fun _ => none) (List.replicate 32 2) (List.replicate 5 sample_account)
        [65] [66] [] [] [] [] 0 0 0 []).result
      = Except.error ErrorCode.CpiInvokeFailed := by
  have h := c2_short_list_reaches_invoke (fun _ => Except.ok ())
    (fun _ => Except.error 3) (fun _ => none) (List.replicate 32 2)
    (List.replicate 5 sample_account) [65] [66] [] [] [] [] 0 0 0 []
    (by simp) rfl
  exact h.2 3 rfl

/-- Claim C5 is refuted: two different underlying invocation diagnostics
(0 and 1) produce identical returned errors, the generic CpiInvokeFailed,
so the underlying cause is not recoverable from the returned value. -/
theorem c5_counterexample :
    (run_request (fun _ => Except.ok ()) (fun _ => Except.error 0)
        sample_request).result =
      (run_request (fun _ => Except.ok ()) (fun _ => Except.error 1)
        sample_request).result ∧
    (run_request (fun _ => Except.ok ()) (fun _ => Except.error 0)
        sample_request).result = Except.error ErrorCode.CpiInvokeFailed ∧
    (0 : Nat) ≠ 1 :=
  ⟨rfl, rfl, by decide⟩

/-- Claim C5 (amended): each failure is replaced by one of two generic
codes identifying only the failing step (attachment as LightAccountError,
invocation as CpiInvokeFailed); the collaborator's diagnostic is logged
but not carried in the returned value, so the outcome is constant in the
underlying error detail. -/
theorem c5_generic_step_codes (req : Request) (e1 e2 : Nat)
    (invoke : Request → Except Nat Unit) :
    (run_request (fun _ => Except.error e1) invoke req).result =
      Except.error ErrorCode.LightAccountError ∧
    (run_request (fun _ => Except.ok ()) (fun _ => Except.error e1) req).result =
      Except.error ErrorCode.CpiInvokeFailed ∧
    run_request (fun _ => Except.error e1) invoke req =
      run_request (fun _ => Except.error e2) invoke req ∧
    run_request (fun _ => Except.ok ()) (fun _ => Except.error e1) req =
      run_request (fun _ => Except.ok ()) (fun _ => Except.error e2) req :=
  ⟨rfl, rfl, rfl, rfl⟩

/-- Claim C6: the call succeeds exactly when both the attach step and the
invoke step succeed; an attach failure yields LightAccountError with the
invocation never attempted; an invoke failure after a successful attach
yields CpiInvokeFailed. -/
theorem c6_result_cases (attach : LightAccountModel → Except Nat Unit)
    (invoke : Request → Except Nat Unit) (req : Request) :
    ((run_request attach invoke req).result = Except.ok () ↔
      attach req.registry = Except.ok () ∧ invoke req = Except.ok ()) ∧
    (∀ e, attach req.registry = Except.error e →
      run_request attach invoke req =
        { result := Except.error ErrorCode.LightAccountError
          invokeAttempted := false }) ∧
    (∀ e, attach req.registry = Except.ok () → invoke req = Except.error e →
      run_request attach invoke req =
        { result := Except.error ErrorCode.CpiInvokeFailed
          invokeAttempted := true }) := by
  refine ⟨?_, ?_, ?_⟩
  · cases ha : attach req.registry with
    | error e => simp [run_request, ha]
    | ok u =>
      cases u
      cases hi : invoke req with
      | error e => simp [run_request, ha, hi]
      | ok v =>
        cases v
        simp [run_request, ha, hi]
  · intro e he
    simp [run_request, he]
  · intro e ha hi
    simp [run_request, ha, hi]

/-- Witness for C6: with a concretely failing attach step the outcome is
LightAccountError and the invocation is not attempted. -/
theorem c6_witness :
    run_request (fun _ => Except.error 5) (fun _ => Except.ok ())
        sample_request =
      { result := Except.error ErrorCode.LightAccountError
        invokeAttempted := false } :=
  (c6_result_cases (fun _ => Except.error 5) (fun _ => Except.ok ())
    sample_request).2.1 5 rfl

/-- Claim C7: hash_to_32_bytes always returns 32 bytes with no error
path: the Poseidon digest when hashing succeeds, and on hash failure the
first min(len, 32) raw bytes zero-padded to 32 bytes. -/
theorem c7_hash_shape (poseidon : List Nat → Option (List Nat))
    (data : List Nat)
    (hlen : ∀ d h, poseidon d = some h → h.length = 32) :
    (hash_to_32_bytes poseidon data).length = 32 ∧
    (∀ h, poseidon data = some h → hash_to_32_bytes poseidon data = h) ∧
    (poseidon data = none →
      hash_to_32_bytes poseidon data =
        data.take (min data.length 32)
          ++ List.replicate (32 - min data.length 32) 0) := by
  refine ⟨?_, ?_, ?_⟩
  · cases hp : poseidon data with
    | some h =>
      simp only [hash_to_32_bytes]
      rw [hp]
      exact hlen data h hp
    | none =>
      simp only [hash_to_32_bytes]
      rw [hp]
      exact pack_fixed_width_length data 32
  · intro h hp
    simp only [hash_to_32_bytes]
    rw [hp]
  · intro hp
    simp only [hash_to_32_bytes]
    rw [hp]
    exact pack_fixed_width_eq data 32

/-- Witness for C7 with an always-failing hasher on the three bytes
1, 2, 3: the result is 32 bytes long. -/
theorem c7_witness :
    (hash_to_32_bytes (fun _ => none) [1, 2, 3]).length = 32 :=
  (c7_hash_shape (fun _ => none) [1, 2, 3] (fun _ _ hh => nomatch hh)).1

/-- Claim C8: hash_to_32_bytes is deterministic; equal inputs give equal
digests. -/
theorem c8_deterministic (poseidon : List Nat → Option (List Nat))
    (d1 d2 : List Nat) (h : d1 = d2) :
    hash_to_32_bytes poseidon d1 = hash_to_32_bytes poseidon d2 := by
  rw [h]

/-- Witness for C8 at the concrete input consisting of the byte 7. -/
theorem c8_witness :
    hash_to_32_bytes (fun _ => none) [7] = hash_to_32_bytes (fun _ => none) [7] :=
  c8_deterministic (fun _ => none) [7] [7] rfl

/-- Claim C9: the record handed to the invocation step has owner equal to
the signer key, all fixed-width fields at exactly their declared widths
(owner 32, name 32, symbol 10, uri_hash 32), and the unwritten tails of
name and symbol zero-filled. -/
theorem c9_payload_populated (poseidon : List Nat → Option (List Nat))
    (user_key : List Nat) (remaining_accounts : List AccountInfoModel)
    (name symbol uri proof_a proof_b proof_c : List Nat)
    (root ti qi : Nat) (seed : List Nat)
    (hkey : user_key.length = 32)
    (hpo : ∀ d h, poseidon d = some h → h.length = 32) :
    let r := (build_request poseidon user_key remaining_accounts name symbol
      uri proof_a proof_b proof_c root ti qi seed).registry.record
    r.owner = user_key ∧
    r.owner.length = 32 ∧
    r.name.length = 32 ∧
    r.symbol.length = 10 ∧
    r.uri_hash.length = 32 ∧
    r.name.drop (min name.length 32) = List.replicate (32 - min name.length 32) 0 ∧
    r.symbol.drop (min symbol.length 10) = List.replicate (10 - min symbol.length 10) 0 := by
  intro r
  have hn : r.name = pack_fixed_width name 32 := rfl
  have hs : r.symbol = pack_fixed_width symbol 10 := rfl
  have hdropn : (pack_fixed_width name 32).drop (min name.length 32)
      = List.replicate (32 - min name.length 32) 0 := by
    rw [pack_fixed_width_eq]
    rw [List.drop_append_of_le_length (by simp [List.length_take])]
    simp [List.length_take]
  have hdrops : (pack_fixed_width symbol 10).drop (min symbol.length 10)
      = List.replicate (10 - min symbol.length 10) 0 := by
    rw [pack_fixed_width_eq]
    rw [List.drop_append_of_le_length (by simp [List.length_take])]
    simp [List.length_take]
  refine ⟨rfl, hkey, ?_, ?_, ?_, ?_, ?_⟩
  · rw [hn]; exact pack_fixed_width_length name 32
  · rw [hs]; exact pack_fixed_width_length symbol 10
  · exact (c7_hash_shape poseidon uri hpo).1
  · rw [hn]; exact hdropn
  · rw [hs]; exact hdrops

/-- Witness for C9 at concrete inputs: the name field of the assembled
record is 32 bytes long. -/
theorem c9_witness :
    (build_request (fun _ => none) (List.replicate 32 2) [] [1, 2] [3] [4]
        [] [] [] 0 0 0 []).registry.record.name.length = 32 := by
  have h := c9_payload_populated (fun _ => none) (List.replicate 32 2) []
    [1, 2] [3] [4] [] [] [] 0 0 0 [] (by simp) (fun _ _ hh => nomatch hh)
  exact h.2.2.1

/-- Claim C10: the input-shaping steps are total: for arbitrary inputs
every slice taken by the truncate-and-pad packing and by the hash
fallback is in bounds (the bound-checked packer never reaches a
would-panic branch), because the copy length is clamped with min. -/
theorem c10_shaping_total (name symbol uri : List Nat) :
    pack_fixed_width_checked name 32 = some (pack_fixed_width name 32) ∧
    pack_fixed_width_checked symbol 10 = some (pack_fixed_width symbol 10) ∧
    pack_fixed_width_checked uri 32 = some (pack_fixed_width uri 32) ∧
    min name.length 32 ≤ name.length ∧
    min name.length 32 ≤ 32 ∧
    (∀ poseidon : List Nat → Option (List Nat), poseidon uri = none →
      hash_to_32_bytes poseidon uri = pack_fixed_width uri 32) := by
  refine ⟨pack_fixed_width_checked_eq name 32, pack_fixed_width_checked_eq symbol 10,
    pack_fixed_width_checked_eq uri 32, Nat.min_le_left _ _, Nat.min_le_right _ _, ?_⟩
  intro poseidon hp
  simp only [hash_to_32_bytes]
  rw [hp]

/-- Witness for C10 at a 40-byte name and a concretely failing hasher. -/
theorem c10_witness :
    pack_fixed_width_checked (List.replicate 40 7) 32
      = some (pack_fixed_width (List.replicate 40 7) 32) ∧
    hash_to_32_bytes (fun _ => none) [5] = pack_fixed_width [5] 32 := by
  have h := c10_shaping_total (List.replicate 40 7) [8, 9] [5]
  exact ⟨h.1, h.2.2.2.2.2 (fun _ => none) rfl⟩
